import Mathlib

/-!
Verification of matrixmail (src/main.rs): a shallow embedding of the session
lifecycle and sync-gated delivery protocol, with theorems checking the
specification claims against the code.

The remote Matrix service (sync endpoint, join endpoint, send endpoint, the
OS host-name call and environment variables) is modelled as oracle inputs
supplied to the embedded functions; everything the program itself computes is
translated directly from the Rust source.
-/

/-- Result of one sync_once call made by the program: either the server
answers with the next_batch checkpoint token, or the call fails. -/
inductive SyncResult where
  | ok (next_batch : String)
  | err
deriving Repr, DecidableEq

/-- One observed sync_once call: the checkpoint token carried in the request
(none means the token was omitted, i.e. a full sync) and the result. -/
structure SyncCall where
  request : Option String
  result : SyncResult
deriving Repr, DecidableEq

/-- The sync retry loop of main.rs (lines 230-241 and 247-258): repeatedly
call sync_once with the current request token, skipping failures, until a
call succeeds; on success return the next_batch token and the unconsumed
remainder of the response oracle, together with the list of calls made.
An exhausted oracle (first component none) models the loop running forever. -/
def syncLoop (tok : Option String) : List SyncResult → Option (String × List SyncResult) × List SyncCall
  | [] => (none, [])
  | SyncResult.ok t :: rest => (some (t, rest), [⟨tok, SyncResult.ok t⟩])
  | SyncResult.err :: rest =>
    ((syncLoop tok rest).1, ⟨tok, SyncResult.err⟩ :: (syncLoop tok rest).2)

/-- The stored token after one sync call: a success overwrites it with the
returned next_batch token, a failure leaves it unchanged. -/
def nextTok (tok : Option String) (c : SyncCall) : Option String :=
  match c.result with
  | SyncResult.ok t => some t
  | SyncResult.err => tok

/-- Well-formedness of a sequence of sync calls with respect to an initial
stored token: every call carries exactly the currently stored token in its
request, where the stored token is overwritten only by a successful call. -/
def callsWF : Option String → List SyncCall → Bool
  | _, [] => true
  | tok, c :: rest => decide (c.request = tok) && callsWF (nextTok tok c) rest

/-- The stored token after a whole sequence of sync calls. -/
def afterCalls : Option String → List SyncCall → Option String
  | tok, [] => tok
  | tok, c :: rest => afterCalls (nextTok tok c) rest

/-- The next_batch tokens of the successful calls, in order. -/
def okResults : List SyncCall → List String
  | [] => []
  | c :: rest =>
    match c.result with
    | SyncResult.ok t => t :: okResults rest
    | SyncResult.err => okResults rest

/-- The successive stored sync_token values form a chain under a given
ordering: starting from the initial stored value, each successful sync
result is at-or-after the value it overwrites. -/
def storedChain (le : String → String → Prop) : Option String → List String → Prop
  | _, [] => True
  | none, t :: rest => storedChain le (some t) rest
  | some s, t :: rest => le s t ∧ storedChain le (some t) rest

/-- Whether a sync response is a success. -/
def isOk : SyncResult → Bool
  | SyncResult.ok _ => true
  | SyncResult.err => false

/-- The persisted Session record of main.rs (lines 51-62). -/
structure Session where
  homeserver : String
  user_id : String
  device_id : String
  access_token : String
  refresh_token : Option String
  sync_token : Option String
deriving Repr, DecidableEq

/-- Observable events of a send-mode run: message send attempts (with their
success flag) and sync calls, in program order. -/
inductive Event where
  | send (address : String) (message : String) (ok : Bool)
  | sync (call : SyncCall)
deriving Repr, DecidableEq

/-- The sync calls occurring in an event trace, in order. -/
def syncCalls : List Event → List SyncCall
  | [] => []
  | Event.sync c :: rest => c :: syncCalls rest
  | Event.send _ _ _ :: rest => syncCalls rest

/-- Outcome of the per-destination delivery loop (main.rs lines 243-259):
all destinations done (with the final checkpoint token and the unconsumed
response oracle), a send failure (the expect panic at line 245), or a
post-send sync loop that never terminates. -/
inductive LoopOutcome where
  | done (tok : String) (rs : List SyncResult)
  | sendFailed (address : String)
  | syncDiverged
deriving Repr, DecidableEq

/-- The per-destination delivery loop of main.rs (lines 243-259): for each
address in order, attempt the send (a failure panics immediately), then run
the post-send sync retry loop before moving to the next address. -/
def deliverAll (msg : String) (sendOk : String → Bool) :
    List String → String → List SyncResult → LoopOutcome × List Event
  | [], tok, rs => (LoopOutcome.done tok rs, [])
  | addr :: rest, tok, rs =>
    if sendOk addr then
      match syncLoop (some tok) rs with
      | (none, calls) =>
        (LoopOutcome.syncDiverged, Event.send addr msg true :: calls.map Event.sync)
      | (some (t, rem), calls) =>
        ((deliverAll msg sendOk rest t rem).1,
         Event.send addr msg true ::
           (calls.map Event.sync ++ (deliverAll msg sendOk rest t rem).2))
    else
      (LoopOutcome.sendFailed addr, [Event.send addr msg false])

/-- Characters the Rust str trim functions strip, modelled over the ASCII
whitespace set of Char.isWhitespace. -/
def trimChars (l : List Char) : List Char :=
  ((l.dropWhile Char.isWhitespace).reverse.dropWhile Char.isWhitespace).reverse

/-- Model of the Rust str trim method: strip leading and trailing
whitespace. -/
def strTrim (s : String) : String := String.mk (trimChars s.data)

/-- Model of the Rust str starts_with method. -/
def strStartsWith (s p : String) : Bool := p.data.isPrefixOf s.data

/-- The message composition of main.rs (lines 200-203): with a subject the
message is trim(subject), a blank line, then trim(body); without a subject it
is trim(body) alone. -/
def composeMessage (subject : Option String) (body : String) : String :=
  match subject with
  | some s => strTrim s ++ "\n\n" ++ strTrim body
  | none => strTrim body

/-- Input oracle for one send-mode run: the loaded Session, the destination
addresses, the subject option and the standard-input body, the per-address
send result, the stream of sync responses, and the token pair reported by
the client at the end of the run (main.rs lines 261-263). -/
structure SendModeInput where
  session : Session
  addresses : List String
  subject : Option String
  body : String
  sendOk : String → Bool
  syncResponses : List SyncResult
  finalAccessToken : String
  finalRefreshToken : Option String

/-- Outcome of a send-mode run: the Session persisted at the end, a panic
at a failing destination (nothing persisted), or an endless sync loop. -/
inductive Outcome where
  | saved (s : Session)
  | panicked (address : String)
  | diverged
deriving Repr, DecidableEq

/-- The bootstrap sync of main.rs (lines 224-241): the request carries the
stored sync_token when present and omits it when absent, the call is
retried until one succeeds, and on success session.sync_token is set to the
returned next_batch token. -/
def bootstrap (s : Session) (rs : List SyncResult) :
    Option (Session × String × List SyncResult) × List SyncCall :=
  match syncLoop s.sync_token rs with
  | (none, calls) => (none, calls)
  | (some (t, rem), calls) => (some ({ s with sync_token := some t }, t, rem), calls)

/-- The end of a send-mode run given the delivery loop outcome: on success
the Session (with the final checkpoint and the client token pair, main.rs
lines 261-264) is persisted; a send failure panics without persisting. -/
def finishRun (inp : SendModeInput) (s1 : Session) : LoopOutcome → Outcome
  | LoopOutcome.done tokF _ =>
    Outcome.saved { s1 with
      sync_token := some tokF,
      access_token := inp.finalAccessToken,
      refresh_token := inp.finalRefreshToken }
  | LoopOutcome.sendFailed a => Outcome.panicked a
  | LoopOutcome.syncDiverged => Outcome.diverged

/-- A whole send-mode run of main.rs (lines 197-266): compose the message,
bootstrap sync, deliver to every address in order, then persist the updated
Session; together with the trace of send attempts and sync calls. -/
def runSendMode (inp : SendModeInput) : Outcome × List Event :=
  match bootstrap inp.session inp.syncResponses with
  | (none, calls) => (Outcome.diverged, calls.map Event.sync)
  | (some (s1, t1, rs1), calls) =>
    (finishRun inp s1 (deliverAll (composeMessage inp.subject inp.body) inp.sendOk inp.addresses t1 rs1).1,
     calls.map Event.sync ++ (deliverAll (composeMessage inp.subject inp.body) inp.sendOk inp.addresses t1 rs1).2)

/-- Rewriting of a loop outcome under removal of failed sync responses from
the unconsumed oracle. -/
def filterOkRem : LoopOutcome → LoopOutcome
  | LoopOutcome.done t r => LoopOutcome.done t (r.filter isOk)
  | LoopOutcome.sendFailed a => LoopOutcome.sendFailed a
  | LoopOutcome.syncDiverged => LoopOutcome.syncDiverged

/-- The room states of the matrix_sdk RoomState enum used by send_message. -/
inductive RoomState where
  | Joined
  | Left
  | Invited
deriving Repr, DecidableEq

/-- Environment of one send_message call: the local joined-room view
(client.get_room combined with room.state), the join request oracle, and
the result of the room send call. -/
structure SendMessageEnv where
  getRoom : String → Option RoomState
  joinOk : String → Bool
  sendResultOk : Bool

/-- Observable events of one send_message call. -/
inductive DeliveryEvent where
  | joinRequest (roomId : String)
  | sendEvent (roomId : String) (message : String)
deriving Repr, DecidableEq

/-- Whether a delivery event is a join request. -/
def isJoinReq : DeliveryEvent → Bool
  | DeliveryEvent.joinRequest _ => true
  | DeliveryEvent.sendEvent _ _ => false

/-- The send_message function of main.rs (lines 92-104): if the local view
has the room in joined state, send directly; otherwise issue one join
request and, only if it succeeds, send. Returns the success flag and the
trace of join and send events. -/
def send_message (env : SendMessageEnv) (roomId msg : String) : Bool × List DeliveryEvent :=
  match (env.getRoom roomId).filter (fun st => decide (st = RoomState.Joined)) with
  | some _ => (env.sendResultOk, [DeliveryEvent.sendEvent roomId msg])
  | none =>
    if env.joinOk roomId then
      (env.sendResultOk, [DeliveryEvent.joinRequest roomId, DeliveryEvent.sendEvent roomId msg])
    else
      (false, [DeliveryEvent.joinRequest roomId])

/-- JSON values as far as the Session serialization needs them. -/
inductive Json where
  | str (s : String)
  | obj (fields : List (String × Json))

/-- Field lookup in a serialized object, first occurrence wins. -/
def jsonLookup (fields : List (String × Json)) (key : String) : Option Json :=
  match fields with
  | [] => none
  | (k, v) :: rest => if k = key then some v else jsonLookup rest key

/-- A required string field: present and a string, or the record is rejected. -/
def getStr (fields : List (String × Json)) (key : String) : Option String :=
  match jsonLookup fields key with
  | some (Json.str s) => some s
  | some (Json.obj _) => none
  | none => none

/-- An optional string field: absent fields deserialize to none, as serde
derives for Option fields. -/
def getOptStr (fields : List (String × Json)) (key : String) : Option (Option String) :=
  match jsonLookup fields key with
  | none => some none
  | some (Json.str s) => some (some s)
  | some (Json.obj _) => none

/-- The serialized form written by save_session (main.rs lines 84-90): the
serde derive on Session (lines 51-62) emits the four required string fields
and, due to skip_serializing_if Option is_none, each optional field only
when present. The file write itself is an external collaborator; the
content is modelled at the JSON level. -/
def save_session (s : Session) : Json :=
  Json.obj
    ([("homeserver", Json.str s.homeserver),
      ("user_id", Json.str s.user_id),
      ("device_id", Json.str s.device_id),
      ("access_token", Json.str s.access_token)] ++
     (match s.refresh_token with
      | some t => [("refresh_token", Json.str t)]
      | none => []) ++
     (match s.sync_token with
      | some t => [("sync_token", Json.str t)]
      | none => []))

/-- The deserialization performed by load_session (main.rs lines 76-82) via
the serde derive on Session: the four required fields must be present
strings, the two optional fields deserialize to none when absent. -/
def load_session (j : Json) : Option Session :=
  match j with
  | Json.str _ => none
  | Json.obj fields =>
    match getStr fields "homeserver", getStr fields "user_id", getStr fields "device_id",
          getStr fields "access_token", getOptStr fields "refresh_token", getOptStr fields "sync_token" with
    | some hs, some uid, some did, some atok, some rt, some st =>
      some { homeserver := hs, user_id := uid, device_id := did,
             access_token := atok, refresh_token := rt, sync_token := st }
    | _, _, _, _, _, _ => none

/-- The terminal path component of a path string, as Rust Path file_name
computes it (main.rs line 179): path components drop empty segments and
single dots; the last component is the file name unless it is a parent-dir
marker or there is no component at all. -/
def splitSlash : List Char → List (List Char)
  | [] => [[]]
  | c :: rest =>
    if c = '/' then [] :: splitSlash rest
    else
      match splitSlash rest with
      | [] => [[c]]
      | h :: t => (c :: h) :: t

/-- The path split into slash-separated segments. -/
def pathParts (p : String) : List String := (splitSlash p.data).map String.mk

def fileName (p : String) : Option String :=
  match ((pathParts p).filter (fun s => !(s == "" || s == "."))).getLast? with
  | none => none
  | some c => if c = ".." then none else some c

/-- The two operating modes. -/
inductive Mode where
  | send
  | setup
deriving Repr, DecidableEq

/-- The mode dispatch of main.rs (lines 178-195): take the file name of
argv0 (the unwrap panics when there is none, modelled as none here); any
name other than mail and mailx runs setup mode, those two run send mode. -/
def selectMode (arg0 : String) : Option Mode :=
  match fileName arg0 with
  | none => none
  | some name => if name ≠ "mail" ∧ name ≠ "mailx" then some Mode.setup else some Mode.send

/-- The gethostname wrapper of main.rs (lines 128-134). The libc call
writes the host name into the raw allocation of a Vec created with
with_capacity, but the length of the Vec is never set, so its logical
contents stay the empty byte sequence; on success the function returns the
UTF-8 decoding of those zero bytes, which is always the empty string. The
oracle argument is the OS host name (none when the libc call fails). -/
def gethostname (osHostname : Option String) : Option String :=
  match osHostname with
  | some _ => some ""
  | none => none

/-- Input oracle for one setup-mode enrollment: the five prompt answers
(already newline-stripped), the OS host name, and the USER environment
variable (none when unset). -/
structure LoginEnv where
  homeserverInput : String
  userInput : String
  passwordInput : String
  deviceNameInput : String
  displayNameInput : String
  osHostname : Option String
  userEnvVar : Option String

/-- The observable steps of the enrollment procedure, in program order. -/
inductive LoginStep where
  | promptHomeserver
  | promptUser
  | promptPassword
  | promptDeviceName
  | computeDisplayDefault
  | promptDisplayName
  | loginExchange
deriving Repr, DecidableEq

/-- The values the enrollment procedure hands to the login exchange. -/
structure LoginResult where
  homeserver : String
  user : String
  password : String
  device_name : String
  display_name : String
deriving Repr, DecidableEq

/-- The enrollment procedure of main.rs (lines 136-167) up to the login
exchange: resolve the homeserver (default matrix.org, scheme prepended when
missing), the device name (default from gethostname, empty string when that
fails), then compute the display-name default from the USER environment
variable; the unwrap on that variable panics when USER is unset, which cuts
the run short (second component none) before the display-name prompt and
the login exchange. -/
def loginRun (env : LoginEnv) : List LoginStep × Option LoginResult :=
  let homeserver0 := if env.homeserverInput ≠ "" then env.homeserverInput else "matrix.org"
  let homeserver :=
    if strStartsWith homeserver0 "https://" || strStartsWith homeserver0 "http://" then homeserver0
    else "https://" ++ homeserver0
  let default_device_name := (gethostname env.osHostname).getD ""
  let device_name := if env.deviceNameInput ≠ "" then env.deviceNameInput else default_device_name
  match env.userEnvVar with
  | none =>
    ([LoginStep.promptHomeserver, LoginStep.promptUser, LoginStep.promptPassword,
      LoginStep.promptDeviceName, LoginStep.computeDisplayDefault], none)
  | some u =>
    let default_display_name := u ++ "@" ++ device_name
    let display_name := if env.displayNameInput ≠ "" then env.displayNameInput else default_display_name
    ([LoginStep.promptHomeserver, LoginStep.promptUser, LoginStep.promptPassword,
      LoginStep.promptDeviceName, LoginStep.computeDisplayDefault, LoginStep.promptDisplayName,
      LoginStep.loginExchange],
     some { homeserver := homeserver, user := env.userInput, password := env.passwordInput,
            device_name := device_name, display_name := display_name })

/-- Concrete send-mode run with one destination whose post-send sync fails
once and then succeeds; the stream is bootstrap success, post-send failure,
post-send success. -/
def c1inp : SendModeInput :=
  { session := { homeserver := "https://hs.example", user_id := "@u:hs.example",
                 device_id := "DEV", access_token := "atok",
                 refresh_token := none, sync_token := none },
    addresses := ["!room1:hs.example"],
    subject := none,
    body := "hello",
    sendOk := fun _ => true,
    syncResponses := [SyncResult.ok "t1", SyncResult.err, SyncResult.ok "t2"],
    finalAccessToken := "atok2",
    finalRefreshToken := none }

/-- Concrete send-mode run with one destination and two successful syncs. -/
def c2inp : SendModeInput :=
  { session := { homeserver := "https://hs.example", user_id := "@u:hs.example",
                 device_id := "DEV", access_token := "atok",
                 refresh_token := none, sync_token := none },
    addresses := ["!room1:hs.example"],
    subject := none,
    body := "hello",
    sendOk := fun _ => true,
    syncResponses := [SyncResult.ok "a", SyncResult.ok "bb"],
    finalAccessToken := "atok2",
    finalRefreshToken := none }

/-- Concrete send-mode run with two destinations where the send to the
second destination fails. -/
def c4inp : SendModeInput :=
  { session := { homeserver := "https://hs.example", user_id := "@u:hs.example",
                 device_id := "DEV", access_token := "atok",
                 refresh_token := none, sync_token := none },
    addresses := ["!r1:hs.example", "!r2:hs.example"],
    subject := none,
    body := "m",
    sendOk := fun a => a == "!r1:hs.example",
    syncResponses := [SyncResult.ok "t1", SyncResult.ok "t2"],
    finalAccessToken := "atok2",
    finalRefreshToken := none }

/-- Concrete send-mode run with two destinations where every send succeeds. -/
def c4inpB : SendModeInput :=
  { session := { homeserver := "https://hs.example", user_id := "@u:hs.example",
                 device_id := "DEV", access_token := "atok",
                 refresh_token := none, sync_token := none },
    addresses := ["!r1:hs.example", "!r2:hs.example"],
    subject := none,
    body := "m",
    sendOk := fun _ => true,
    syncResponses := [SyncResult.ok "t1", SyncResult.ok "t2", SyncResult.ok "t3"],
    finalAccessToken := "atok2",
    finalRefreshToken := none }

/-- Concrete Session with no stored checkpoint, for the bootstrap runs. -/
def c5s : Session :=
  { homeserver := "https://hs.example", user_id := "@u:hs.example", device_id := "DEV",
    access_token := "atok", refresh_token := none, sync_token := none }

/-- Concrete send-mode run with a subject and a body that both carry
leading and trailing whitespace, and an embedded blank line in the body. -/
def c6inp : SendModeInput :=
  { session := { homeserver := "https://hs.example", user_id := "@u:hs.example",
                 device_id := "DEV", access_token := "atok",
                 refresh_token := none, sync_token := none },
    addresses := ["!r:hs.example"],
    subject := some " Hi ",
    body := " Body\n\nmore ",
    sendOk := fun _ => true,
    syncResponses := [SyncResult.ok "t1", SyncResult.ok "t2"],
    finalAccessToken := "atok2",
    finalRefreshToken := none }

/-- Delivery environment whose local view has the destination joined. -/
def c3envA : SendMessageEnv :=
  { getRoom := fun _ => some RoomState.Joined, joinOk := fun _ => false, sendResultOk := true }

/-- Delivery environment whose local view does not know the destination and
whose join request succeeds. -/
def c3envB : SendMessageEnv :=
  { getRoom := fun _ => none, joinOk := fun _ => true, sendResultOk := true }

/-- Concrete enrollment environment with the USER environment variable
unset and an explicitly typed display name. -/
def c10env : LoginEnv :=
  { homeserverInput := "https://hs.example", userInput := "u", passwordInput := "p",
    deviceNameInput := "dev", displayNameInput := "Typed Name",
    osHostname := some "host", userEnvVar := none }

/-- Concrete enrollment environment: empty line at every prompt, OS host
name available and nonempty, USER set. -/
def c9env : LoginEnv :=
  { homeserverInput := "", userInput := "", passwordInput := "",
    deviceNameInput := "", displayNameInput := "",
    osHostname := some "myhost", userEnvVar := some "alice" }

theorem syncLoop_requests (tok : Option String) :
    ∀ (rs : List SyncResult) (c : SyncCall), c ∈ (syncLoop tok rs).2 → c.request = tok := by
  intro rs
  induction rs with
  | nil => intro c hc; simp [syncLoop] at hc
  | cons r rest ih =>
    intro c hc
    cases r with
    | ok t =>
      simp [syncLoop] at hc
      subst hc; rfl
    | err =>
      simp [syncLoop] at hc
      rcases hc with hc | hc
      · subst hc; rfl
      · exact ih c hc

theorem syncLoop_none_iff (tok : Option String) :
    ∀ rs : List SyncResult, (syncLoop tok rs).1 = none ↔ ∀ r ∈ rs, r = SyncResult.err := by
  intro rs
  induction rs with
  | nil => simp [syncLoop]
  | cons r rest ih =>
    cases r with
    | ok t => simp [syncLoop]
    | err => simp [syncLoop, ih]

theorem syncLoop_ok_okResults (tok : Option String) :
    ∀ (rs rem : List SyncResult) (t : String),
      (syncLoop tok rs).1 = some (t, rem) → okResults (syncLoop tok rs).2 = [t] := by
  intro rs
  induction rs with
  | nil => intro rem t h; simp [syncLoop] at h
  | cons r rest ih =>
    intro rem t h
    cases r with
    | ok t0 =>
      simp [syncLoop] at h
      simp [syncLoop, okResults, h.1]
    | err =>
      simp only [syncLoop] at h
      simp only [syncLoop, okResults]
      exact ih rem t h

theorem syncLoop_callsWF (tok : Option String) :
    ∀ rs : List SyncResult, callsWF tok (syncLoop tok rs).2 = true := by
  intro rs
  induction rs with
  | nil => rfl
  | cons r rest ih =>
    cases r with
    | ok t => simp [syncLoop, callsWF, nextTok]
    | err => simp [syncLoop, callsWF, nextTok, ih]

theorem syncLoop_ok_afterCalls (tok : Option String) :
    ∀ (rs rem : List SyncResult) (t : String),
      (syncLoop tok rs).1 = some (t, rem) → afterCalls tok (syncLoop tok rs).2 = some t := by
  intro rs
  induction rs with
  | nil => intro rem t h; simp [syncLoop] at h
  | cons r rest ih =>
    intro rem t h
    cases r with
    | ok t0 =>
      simp [syncLoop] at h
      simp [syncLoop, afterCalls, nextTok, h.1]
    | err =>
      simp only [syncLoop] at h
      simp only [syncLoop, afterCalls, nextTok]
      exact ih rem t h

theorem syncLoop_filter (tok : Option String) :
    ∀ rs : List SyncResult,
      (syncLoop tok (rs.filter isOk)).1 =
        ((syncLoop tok rs).1).map (fun p => (p.1, p.2.filter isOk)) := by
  intro rs
  induction rs with
  | nil => rfl
  | cons r rest ih =>
    cases r with
    | ok t => simp [syncLoop, isOk, List.filter_cons]
    | err => simp [syncLoop, isOk, List.filter_cons, ih]

theorem callsWF_append :
    ∀ (a b : List SyncCall) (tok : Option String),
      callsWF tok (a ++ b) = (callsWF tok a && callsWF (afterCalls tok a) b) := by
  intro a
  induction a with
  | nil => intro b tok; simp [callsWF, afterCalls]
  | cons c rest ih =>
    intro b tok
    simp [callsWF, afterCalls, ih, Bool.and_assoc]

theorem syncCalls_append :
    ∀ a b : List Event, syncCalls (a ++ b) = syncCalls a ++ syncCalls b := by
  intro a
  induction a with
  | nil => intro b; rfl
  | cons e rest ih =>
    intro b
    cases e with
    | send x y z => simp [syncCalls, ih]
    | sync c => simp [syncCalls, ih]

theorem syncCalls_map_sync :
    ∀ l : List SyncCall, syncCalls (l.map Event.sync) = l := by
  intro l
  induction l with
  | nil => rfl
  | cons c rest ih => simp [syncCalls, ih]

theorem callsWF_storedChain (le : String → String → Prop) :
    ∀ (calls : List SyncCall) (tok : Option String),
      callsWF tok calls = true →
      (∀ c ∈ calls, ∀ s t, c.request = some s → c.result = SyncResult.ok t → le s t) →
      storedChain le tok (okResults calls) := by
  intro calls
  induction calls with
  | nil => intro tok _ _; cases tok <;> trivial
  | cons c rest ih =>
    intro tok hwf h
    rw [callsWF, Bool.and_eq_true, decide_eq_true_eq] at hwf
    obtain ⟨h1, h2⟩ := hwf
    have hrest : ∀ c2 ∈ rest, ∀ s t, c2.request = some s → c2.result = SyncResult.ok t → le s t :=
      fun c2 hc2 => h c2 (List.mem_cons_of_mem _ hc2)
    cases hr : c.result with
    | ok t =>
      have hok : okResults (c :: rest) = t :: okResults rest := by simp [okResults, hr]
      rw [hok]
      have hnext : nextTok tok c = some t := by simp [nextTok, hr]
      rw [hnext] at h2
      cases tok with
      | none =>
        simp only [storedChain]
        exact ih (some t) h2 hrest
      | some s0 =>
        simp only [storedChain]
        refine ⟨?_, ih (some t) h2 hrest⟩
        exact h c (List.mem_cons_self c rest) s0 t (by rw [h1]) hr
    | err =>
      have hok : okResults (c :: rest) = okResults rest := by simp [okResults, hr]
      rw [hok]
      have hnext : nextTok tok c = tok := by simp [nextTok, hr]
      rw [hnext] at h2
      exact ih tok h2 hrest

theorem deliverAll_callsWF (msg : String) (f : String → Bool) :
    ∀ (addrs : List String) (tok : String) (rs : List SyncResult),
      callsWF (some tok) (syncCalls (deliverAll msg f addrs tok rs).2) = true := by
  intro addrs
  induction addrs with
  | nil => intro tok rs; rfl
  | cons addr rest ih =>
    intro tok rs
    by_cases hf : f addr = true
    · have hE := syncLoop_callsWF (some tok) rs
      rcases hsl : syncLoop (some tok) rs with ⟨o, calls⟩
      rw [hsl] at hE
      simp only at hE
      cases o with
      | none =>
        simp [deliverAll, hf, hsl, syncCalls, syncCalls_map_sync, hE]
      | some p =>
        obtain ⟨t, rem⟩ := p
        have hA := syncLoop_ok_afterCalls (some tok) rs rem t (by rw [hsl])
        rw [hsl] at hA
        simp only at hA
        simp [deliverAll, hf, hsl, syncCalls, syncCalls_append, syncCalls_map_sync,
              callsWF_append, hE, hA, ih]
    · simp [deliverAll, hf, syncCalls, callsWF]

theorem deliverAll_done_all_ok (msg : String) (f : String → Bool) :
    ∀ (addrs : List String) (tok : String) (rs : List SyncResult) (t : String) (r : List SyncResult),
      (deliverAll msg f addrs tok rs).1 = LoopOutcome.done t r → ∀ b ∈ addrs, f b = true := by
  intro addrs
  induction addrs with
  | nil => intro tok rs t r _ b hb; simp at hb
  | cons addr rest ih =>
    intro tok rs t r h b hb
    by_cases hf : f addr = true
    · rcases hsl : syncLoop (some tok) rs with ⟨o, calls⟩
      cases o with
      | none => simp [deliverAll, hf, hsl] at h
      | some p =>
        obtain ⟨t1, rem⟩ := p
        simp only [deliverAll, hf, if_true, hsl] at h
        rcases List.mem_cons.mp hb with rfl | hb2
        · exact hf
        · exact ih t1 rem t r h b hb2
    · simp [deliverAll, hf] at h

theorem deliverAll_sendFailed_mem (msg : String) (f : String → Bool) :
    ∀ (addrs : List String) (tok : String) (rs : List SyncResult) (a : String),
      (deliverAll msg f addrs tok rs).1 = LoopOutcome.sendFailed a → a ∈ addrs ∧ f a = false := by
  intro addrs
  induction addrs with
  | nil => intro tok rs a h; simp [deliverAll] at h
  | cons addr rest ih =>
    intro tok rs a h
    by_cases hf : f addr = true
    · rcases hsl : syncLoop (some tok) rs with ⟨o, calls⟩
      cases o with
      | none => simp [deliverAll, hf, hsl] at h
      | some p =>
        obtain ⟨t1, rem⟩ := p
        simp only [deliverAll, hf, if_true, hsl] at h
        obtain ⟨hmem, hfa⟩ := ih t1 rem a h
        exact ⟨List.mem_cons_of_mem _ hmem, hfa⟩
    · simp [deliverAll, hf] at h
      subst h
      exact ⟨List.mem_cons_self addr rest, by simpa using hf⟩

theorem deliverAll_filter (msg : String) (f : String → Bool) :
    ∀ (addrs : List String) (tok : String) (rs : List SyncResult),
      (deliverAll msg f addrs tok (rs.filter isOk)).1 =
        filterOkRem (deliverAll msg f addrs tok rs).1 := by
  intro addrs
  induction addrs with
  | nil => intro tok rs; rfl
  | cons addr rest ih =>
    intro tok rs
    by_cases hf : f addr = true
    · have hfil := syncLoop_filter (some tok) rs
      rcases hsl : syncLoop (some tok) rs with ⟨o, calls⟩
      rw [hsl] at hfil
      rcases hsl2 : syncLoop (some tok) (rs.filter isOk) with ⟨o2, calls2⟩
      rw [hsl2] at hfil
      simp only at hfil
      cases o with
      | none =>
        simp only [Option.map_none'] at hfil
        subst hfil
        simp [deliverAll, hf, hsl, hsl2, filterOkRem]
      | some p =>
        obtain ⟨t, rem⟩ := p
        simp only [Option.map_some'] at hfil
        subst hfil
        simp [deliverAll, hf, hsl, hsl2, ih]
    · simp [deliverAll, hf, filterOkRem]

theorem deliverAll_send_message (msg : String) (f : String → Bool) :
    ∀ (addrs : List String) (tok : String) (rs : List SyncResult) (a m : String) (b : Bool),
      Event.send a m b ∈ (deliverAll msg f addrs tok rs).2 → m = msg := by
  intro addrs
  induction addrs with
  | nil => intro tok rs a m b h; simp [deliverAll] at h
  | cons addr rest ih =>
    intro tok rs a m b h
    by_cases hf : f addr = true
    · rcases hsl : syncLoop (some tok) rs with ⟨o, calls⟩
      cases o with
      | none =>
        simp [deliverAll, hf, hsl] at h
        exact h.2.1
      | some p =>
        obtain ⟨t, rem⟩ := p
        simp [deliverAll, hf, hsl] at h
        rcases h with h | h
        · exact h.2.1
        · exact ih t rem a m b h
    · simp [deliverAll, hf] at h
      exact h.2.1

theorem bootstrap_snd (s : Session) (rs : List SyncResult) :
    (bootstrap s rs).2 = (syncLoop s.sync_token rs).2 := by
  rcases hsl : syncLoop s.sync_token rs with ⟨o, calls⟩
  cases o <;> simp [bootstrap, hsl]

theorem bootstrap_filter (s : Session) (rs : List SyncResult) :
    (bootstrap s (rs.filter isOk)).1 =
      ((bootstrap s rs).1).map (fun p => (p.1, p.2.1, p.2.2.filter isOk)) := by
  have hfil := syncLoop_filter s.sync_token rs
  rcases hsl : syncLoop s.sync_token rs with ⟨o, calls⟩
  rw [hsl] at hfil
  rcases hsl2 : syncLoop s.sync_token (rs.filter isOk) with ⟨o2, calls2⟩
  rw [hsl2] at hfil
  simp only at hfil
  cases o with
  | none =>
    simp only [Option.map_none'] at hfil
    subst hfil
    simp [bootstrap, hsl, hsl2]
  | some p =>
    obtain ⟨t, rem⟩ := p
    simp only [Option.map_some'] at hfil
    subst hfil
    simp [bootstrap, hsl, hsl2]

theorem finishRun_filterOkRem (inp : SendModeInput) (s1 : Session) (o : LoopOutcome) :
    finishRun inp s1 (filterOkRem o) = finishRun inp s1 o := by
  cases o <;> rfl

theorem finishRun_irrel (inp : SendModeInput) (rs : List SyncResult) (s1 : Session) (o : LoopOutcome) :
    finishRun { inp with syncResponses := rs } s1 o = finishRun inp s1 o := by
  cases o <;> rfl

theorem runSendMode_filter (inp : SendModeInput) :
    (runSendMode { inp with syncResponses := inp.syncResponses.filter isOk }).1 =
      (runSendMode inp).1 := by
  have hb := bootstrap_filter inp.session inp.syncResponses
  rcases hbs : bootstrap inp.session inp.syncResponses with ⟨ob, calls⟩
  rw [hbs] at hb
  rcases hbs2 : bootstrap inp.session (inp.syncResponses.filter isOk) with ⟨ob2, calls2⟩
  rw [hbs2] at hb
  simp only at hb
  cases ob with
  | none =>
    simp only [Option.map_none'] at hb
    subst hb
    simp [runSendMode, hbs, hbs2]
  | some p =>
    obtain ⟨s1, t1, rs1⟩ := p
    simp only [Option.map_some'] at hb
    subst hb
    simp [runSendMode, hbs, hbs2, deliverAll_filter, finishRun_filterOkRem, finishRun_irrel]

theorem runSendMode_callsWF (inp : SendModeInput) :
    callsWF inp.session.sync_token (syncCalls (runSendMode inp).2) = true := by
  have hE := syncLoop_callsWF inp.session.sync_token inp.syncResponses
  rcases hsl : syncLoop inp.session.sync_token inp.syncResponses with ⟨o, calls⟩
  rw [hsl] at hE
  simp only at hE
  cases o with
  | none =>
    simp [runSendMode, bootstrap, hsl, syncCalls_map_sync, hE]
  | some p =>
    obtain ⟨t, rem⟩ := p
    have hA := syncLoop_ok_afterCalls inp.session.sync_token inp.syncResponses rem t (by rw [hsl])
    rw [hsl] at hA
    simp only at hA
    simp [runSendMode, bootstrap, hsl, syncCalls_append, syncCalls_map_sync,
          callsWF_append, hE, hA, deliverAll_callsWF]

theorem runSendMode_send_message (inp : SendModeInput) (a m : String) (b : Bool) :
    Event.send a m b ∈ (runSendMode inp).2 → m = composeMessage inp.subject inp.body := by
  intro h
  rcases hsl : syncLoop inp.session.sync_token inp.syncResponses with ⟨o, calls⟩
  cases o with
  | none => simp [runSendMode, bootstrap, hsl] at h
  | some p =>
    obtain ⟨t, rem⟩ := p
    simp [runSendMode, bootstrap, hsl] at h
    exact deliverAll_send_message _ _ _ _ _ _ _ _ h

/-- Claim C1, counterexample to the claim as stated: in the run c1inp the
post-send sync (the two calls whose request is some t1, made after the
successful send) fails on its first attempt, yet the run does not abort:
the sync is performed a second time, succeeds, and the run ends with the
updated Session persisted; so a post-send sync failure is neither fatal nor
propagated, and the post-send sync is not performed exactly once. -/
theorem c1_counterexample :
    (runSendMode c1inp).1 =
      Outcome.saved { homeserver := "https://hs.example", user_id := "@u:hs.example",
                      device_id := "DEV", access_token := "atok2",
                      refresh_token := none, sync_token := some "t2" } ∧
    syncCalls (runSendMode c1inp).2 =
      [{ request := none, result := SyncResult.ok "t1" },
       { request := some "t1", result := SyncResult.err },
       { request := some "t1", result := SyncResult.ok "t2" }] :=
  ⟨rfl, rfl⟩

/-- Claim C1 (amended): in send mode a failure of the post-send sync is not
fatal: the sync call is retried inside the loop until one call succeeds, so
failed sync responses are transparent to the run outcome (removing them
from the response stream changes nothing, in particular not whether the
updated Session is persisted), and a terminating sync loop contains exactly
one successful call, whose token is the one kept. -/
theorem c1_amended (inp : SendModeInput) (tok : Option String) (rs rem : List SyncResult) (t : String) :
    (runSendMode { inp with syncResponses := inp.syncResponses.filter isOk }).1 =
      (runSendMode inp).1 ∧
    ((syncLoop tok rs).1 = some (t, rem) → okResults (syncLoop tok rs).2 = [t]) :=
  ⟨runSendMode_filter inp, syncLoop_ok_okResults tok rs rem t⟩

/-- Claim C1, witness for the amended theorem at a concrete input. -/
theorem c1_amended_witness :
    (runSendMode { c1inp with syncResponses := c1inp.syncResponses.filter isOk }).1 =
      (runSendMode c1inp).1 ∧
    okResults (syncLoop (some "t1") [SyncResult.err, SyncResult.ok "t2"]).2 = ["t2"] :=
  ⟨(c1_amended c1inp (some "t1") [SyncResult.err, SyncResult.ok "t2"] [] "t2").1,
   (c1_amended c1inp (some "t1") [SyncResult.err, SyncResult.ok "t2"] [] "t2").2 (by rfl)⟩

/-- Claim C2: in every send-mode run, every sync call carries exactly the
currently stored sync_token in its request (the stored token being
overwritten only by the next_batch token of a successful call), and under
any server ordering in which each successful call returns a token at-or-
after its request token, the successive stored sync_token values form a
non-decreasing chain: the stored token is never rolled back. -/
theorem c2_sync_token_monotone (inp : SendModeInput) (le : String → String → Prop)
    (h : ∀ c ∈ syncCalls (runSendMode inp).2, ∀ s t,
      c.request = some s → c.result = SyncResult.ok t → le s t) :
    callsWF inp.session.sync_token (syncCalls (runSendMode inp).2) = true ∧
    storedChain le inp.session.sync_token (okResults (syncCalls (runSendMode inp).2)) :=
  ⟨runSendMode_callsWF inp,
   callsWF_storedChain le (syncCalls (runSendMode inp).2) inp.session.sync_token
     (runSendMode_callsWF inp) h⟩

/-- Claim C2, witness at a concrete run with two successful syncs and the
length ordering on tokens. -/
theorem c2_witness :
    callsWF c2inp.session.sync_token (syncCalls (runSendMode c2inp).2) = true ∧
    storedChain (fun x y => x.length ≤ y.length) c2inp.session.sync_token
      (okResults (syncCalls (runSendMode c2inp).2)) :=
  c2_sync_token_monotone c2inp (fun x y => x.length ≤ y.length) (by
    intro c hc s t hreq hres
    have hl : syncCalls (runSendMode c2inp).2 =
        [{ request := none, result := SyncResult.ok "a" },
         { request := some "a", result := SyncResult.ok "bb" }] := rfl
    rw [hl] at hc
    rcases List.mem_cons.mp hc with h1 | h1
    · subst h1; simp at hreq
    · rcases List.mem_cons.mp h1 with h2 | h2
      · subst h2
        simp only at hreq hres
        injection hreq.symm with hs
        injection hres with ht
        subst hs
        rw [← ht]
        decide
      · simp at h2)

/-- Claim C3: in send_message, when the local joined-room view has the
destination in joined state the delivery goes straight to the send and no
join request is issued; otherwise exactly one join request is issued and
the message is sent only after (and if) the join succeeds. -/
theorem c3_membership_gates_join (env : SendMessageEnv) (roomId msg : String) :
    (env.getRoom roomId = some RoomState.Joined →
      (send_message env roomId msg).2 = [DeliveryEvent.sendEvent roomId msg]) ∧
    (¬ env.getRoom roomId = some RoomState.Joined →
      (send_message env roomId msg).2.countP isJoinReq = 1 ∧
      (env.joinOk roomId = true →
        (send_message env roomId msg).2 =
          [DeliveryEvent.joinRequest roomId, DeliveryEvent.sendEvent roomId msg]) ∧
      (env.joinOk roomId = false →
        (send_message env roomId msg).2 = [DeliveryEvent.joinRequest roomId])) := by
  constructor
  · intro h
    simp [send_message, h, Option.filter]
  · intro h
    have hfilter : (env.getRoom roomId).filter (fun st => decide (st = RoomState.Joined)) = none := by
      rcases hg : env.getRoom roomId with _ | st
      · rfl
      · cases st with
        | Joined => exact absurd hg h
        | Left => rfl
        | Invited => rfl
    cases hj : env.joinOk roomId with
    | true =>
      refine ⟨?_, fun _ => ?_, fun hc => ?_⟩
      · simp [send_message, hfilter, hj, List.countP_cons, isJoinReq]
      · simp [send_message, hfilter, hj]
      · simp at hc
    | false =>
      refine ⟨?_, fun hc => ?_, fun _ => ?_⟩
      · simp [send_message, hfilter, hj, List.countP_cons, isJoinReq]
      · simp at hc
      · simp [send_message, hfilter, hj]

/-- Claim C3, witness: a view with the destination joined sends without a
join request, and an unknown destination with a succeeding join produces
exactly one join request followed by the send. -/
theorem c3_witness :
    (send_message c3envA "!r:hs.example" "m").2 = [DeliveryEvent.sendEvent "!r:hs.example" "m"] ∧
    (send_message c3envB "!r:hs.example" "m").2.countP isJoinReq = 1 ∧
    (send_message c3envB "!r:hs.example" "m").2 =
      [DeliveryEvent.joinRequest "!r:hs.example", DeliveryEvent.sendEvent "!r:hs.example" "m"] :=
  ⟨(c3_membership_gates_join c3envA "!r:hs.example" "m").1 (by rfl),
   ((c3_membership_gates_join c3envB "!r:hs.example" "m").2 (by decide)).1,
   ((c3_membership_gates_join c3envB "!r:hs.example" "m").2 (by decide)).2.1 (by rfl)⟩

/-- Claim C4: in a send-mode run, a persisted Session implies every send
succeeded, and a panic outcome names a destination from the argument list
whose send failed; so on a mid-loop send failure the run aborts at that
destination and the Session file is not rewritten, losing the checkpoints
acquired from the earlier destinations. -/
theorem c4_send_failure_not_persisted (inp : SendModeInput) (s : Session) (a : String) :
    ((runSendMode inp).1 = Outcome.saved s → ∀ b ∈ inp.addresses, inp.sendOk b = true) ∧
    ((runSendMode inp).1 = Outcome.panicked a → a ∈ inp.addresses ∧ inp.sendOk a = false) := by
  rcases hsl : bootstrap inp.session inp.syncResponses with ⟨ob, calls⟩
  cases ob with
  | none =>
    constructor
    · intro h; simp [runSendMode, hsl] at h
    · intro h; simp [runSendMode, hsl] at h
  | some p =>
    obtain ⟨s1, t1, rs1⟩ := p
    constructor
    · intro h
      simp only [runSendMode, hsl] at h
      cases hd : (deliverAll (composeMessage inp.subject inp.body) inp.sendOk inp.addresses t1 rs1).1 with
      | done t2 r2 => exact deliverAll_done_all_ok _ _ _ _ _ _ _ hd
      | sendFailed a2 => rw [hd] at h; simp [finishRun] at h
      | syncDiverged => rw [hd] at h; simp [finishRun] at h
    · intro h
      simp only [runSendMode, hsl] at h
      cases hd : (deliverAll (composeMessage inp.subject inp.body) inp.sendOk inp.addresses t1 rs1).1 with
      | done t2 r2 => rw [hd] at h; simp [finishRun] at h
      | sendFailed a2 =>
        rw [hd] at h
        simp only [finishRun, Outcome.panicked.injEq] at h
        subst h
        exact deliverAll_sendFailed_mem _ _ _ _ _ _ hd
      | syncDiverged => rw [hd] at h; simp [finishRun] at h

/-- Claim C4, witness: a two-destination run whose second send fails ends
in a panic at that destination, and a run whose sends all succeed has every
listed destination succeed. -/
theorem c4_witness :
    ("!r2:hs.example" ∈ c4inp.addresses ∧ c4inp.sendOk "!r2:hs.example" = false) ∧
    c4inpB.sendOk "!r1:hs.example" = true :=
  ⟨(c4_send_failure_not_persisted c4inp c5s "!r2:hs.example").2 (by rfl),
   (c4_send_failure_not_persisted c4inpB
      { homeserver := "https://hs.example", user_id := "@u:hs.example", device_id := "DEV",
        access_token := "atok2", refresh_token := none, sync_token := some "t3" }
      "!r2:hs.example").1 (by rfl) "!r1:hs.example" (by decide)⟩

/-- Claim C5: the bootstrap sync requests carry exactly the stored
sync_token (present means checkpointed sync, absent means full sync), the
loop fails to terminate precisely when every response is a failure (it
retries on each failure and exits only on a success), and on success the
resulting Session sync_token is exactly the returned checkpoint token of
the one successful call. -/
theorem c5_bootstrap_contract (s : Session) (rs rem : List SyncResult) (s1 : Session) (t : String) :
    (∀ c ∈ (bootstrap s rs).2, c.request = s.sync_token) ∧
    ((bootstrap s rs).1 = none ↔ ∀ r ∈ rs, r = SyncResult.err) ∧
    ((bootstrap s rs).1 = some (s1, t, rem) →
      s1 = { s with sync_token := some t } ∧ okResults (bootstrap s rs).2 = [t]) := by
  refine ⟨?_, ?_, ?_⟩
  · intro c hc
    rw [bootstrap_snd] at hc
    exact syncLoop_requests s.sync_token rs c hc
  · have hiff : (bootstrap s rs).1 = none ↔ (syncLoop s.sync_token rs).1 = none := by
      rcases hsl : syncLoop s.sync_token rs with ⟨o, calls⟩
      cases o <;> simp [bootstrap, hsl]
    rw [hiff]
    exact syncLoop_none_iff s.sync_token rs
  · intro h
    rcases hsl : syncLoop s.sync_token rs with ⟨o, calls⟩
    cases o with
    | none => simp [bootstrap, hsl] at h
    | some p =>
      obtain ⟨t0, rem0⟩ := p
      simp only [bootstrap, hsl, Option.some.injEq, Prod.mk.injEq] at h
      obtain ⟨h1, h2, h3⟩ := h
      constructor
      · rw [← h1, h2]
      · have hok := syncLoop_ok_okResults s.sync_token rs rem0 t0 (by rw [hsl])
        rw [bootstrap_snd]
        rw [hsl] at hok
        simp only at hok
        rw [hsl]
        simp only
        rw [hok, h2]

/-- Claim C5, witness: bootstrapping a Session with no stored token against
one failure followed by one success makes every request a full sync,
retries past the failure, and stores exactly the returned token; and a
stream of only failures never terminates. -/
theorem c5_witness :
    (SyncCall.mk none SyncResult.err).request = c5s.sync_token ∧
    ({ c5s with sync_token := some "x" } = { c5s with sync_token := some "x" } ∧
     okResults (bootstrap c5s [SyncResult.err, SyncResult.ok "x"]).2 = ["x"]) ∧
    (bootstrap c5s [SyncResult.err]).1 = none :=
  ⟨(c5_bootstrap_contract c5s [SyncResult.err, SyncResult.ok "x"] []
      { c5s with sync_token := some "x" } "x").1
      (SyncCall.mk none SyncResult.err) (by decide),
   (c5_bootstrap_contract c5s [SyncResult.err, SyncResult.ok "x"] []
      { c5s with sync_token := some "x" } "x").2.2 (by rfl),
   (c5_bootstrap_contract c5s [SyncResult.err] [] c5s "x").2.1.mpr (by decide)⟩

/-- Claim C6: the composed message equals trim(subject) ++ blank line ++
trim(body) when a subject is given and trim(body) alone when not, and every
send attempt of a send-mode run carries exactly that composed message, so
the identical string goes to every destination. -/
theorem c6_compose_message (subject body a m : String) (b : Bool) (inp : SendModeInput) :
    composeMessage (some subject) body = strTrim subject ++ "\n\n" ++ strTrim body ∧
    composeMessage none body = strTrim body ∧
    (Event.send a m b ∈ (runSendMode inp).2 → m = composeMessage inp.subject inp.body) :=
  ⟨rfl, rfl, runSendMode_send_message inp a m b⟩

/-- Claim C6, witness: a run with whitespace-laden subject and body (the
body containing an embedded blank line) sends exactly the composed string. -/
theorem c6_witness :
    composeMessage (some " Hi ") " Body\n\nmore " =
      strTrim " Hi " ++ "\n\n" ++ strTrim " Body\n\nmore " ∧
    "Hi\n\nBody\n\nmore" = composeMessage c6inp.subject c6inp.body :=
  ⟨(c6_compose_message " Hi " " Body\n\nmore " "!r:hs.example" "Hi\n\nBody\n\nmore" true c6inp).1,
   (c6_compose_message " Hi " " Body\n\nmore " "!r:hs.example" "Hi\n\nBody\n\nmore" true c6inp).2.2
     (by
       have htr : (runSendMode c6inp).2 =
           [Event.sync { request := none, result := SyncResult.ok "t1" },
            Event.send "!r:hs.example" "Hi\n\nBody\n\nmore" true,
            Event.sync { request := some "t1", result := SyncResult.ok "t2" }] := rfl
       rw [htr]
       exact List.mem_cons_of_mem _ (List.mem_cons_self _ _))⟩

/-- Claim C7: serializing any Session (with any combination of present and
absent optional fields) and deserializing the result yields the identical
Session: the save and load pair round-trips. -/
theorem c7_session_roundtrip (s : Session) :
    load_session (save_session s) = some s := by
  obtain ⟨hs, uid, did, atok, rt, st⟩ := s
  cases rt <;> cases st <;> rfl

/-- Claim C8: the operating mode is a function of the terminal path
component of argv0 alone: when that file name is mail or mailx the program
runs send mode, and for every other file name it runs setup mode. -/
theorem c8_mode_dispatch (arg0 nm : String) (h : fileName arg0 = some nm) :
    (selectMode arg0 = some Mode.send ↔ (nm = "mail" ∨ nm = "mailx")) ∧
    (selectMode arg0 = some Mode.setup ↔ (nm ≠ "mail" ∧ nm ≠ "mailx")) := by
  by_cases h1 : nm = "mail"
  · subst h1; simp [selectMode, h]
  · by_cases h2 : nm = "mailx"
    · subst h2; simp [selectMode, h]
    · simp [selectMode, h, h1, h2]

/-- Claim C8, witness: an argv0 of /usr/bin/mailx selects send mode. -/
theorem c8_witness :
    (selectMode "/usr/bin/mailx" = some Mode.send ↔ ("mailx" = "mail" ∨ "mailx" = "mailx")) ∧
    (selectMode "/usr/bin/mailx" = some Mode.setup ↔ ("mailx" ≠ "mail" ∧ "mailx" ≠ "mailx")) :=
  c8_mode_dispatch "/usr/bin/mailx" "mailx" (by rfl)

/-- Claim C9, evaluation at the failing input: with an empty line at every
prompt, USER set to alice and the OS host name myhost, the enrollment
resolves the homeserver default to https matrix.org correctly, but the
device-name default is the empty string rather than the host name, because
gethostname decodes a zero-length buffer (the Vec length is never set after
the libc call writes into its allocation), and the display-name default
becomes alice@ instead of alice@myhost. -/
theorem c9_hostname_default_bug :
    gethostname (some "myhost") = some "" ∧
    loginRun c9env =
      ([LoginStep.promptHomeserver, LoginStep.promptUser, LoginStep.promptPassword,
        LoginStep.promptDeviceName, LoginStep.computeDisplayDefault, LoginStep.promptDisplayName,
        LoginStep.loginExchange],
       some { homeserver := "https://matrix.org", user := "", password := "",
              device_name := "", display_name := "alice@" }) :=
  ⟨rfl, rfl⟩

/-- Claim C10: in setup mode, whenever the USER environment variable is
unset the enrollment run is cut short while computing the display-name
default: no result is produced, the display-name prompt is never reached
(so an explicitly typed display name changes nothing), the login exchange
never happens, and the last step performed is the display-default
computation. -/
theorem c10_user_env_unset_panics (env : LoginEnv) (h : env.userEnvVar = none) :
    (loginRun env).2 = none ∧
    LoginStep.loginExchange ∉ (loginRun env).1 ∧
    LoginStep.promptDisplayName ∉ (loginRun env).1 ∧
    (loginRun env).1.getLast? = some LoginStep.computeDisplayDefault := by
  have hrun : loginRun env =
      ([LoginStep.promptHomeserver, LoginStep.promptUser, LoginStep.promptPassword,
        LoginStep.promptDeviceName, LoginStep.computeDisplayDefault], none) := by
    simp [loginRun, h]
  rw [hrun]
  exact ⟨rfl, by decide, by decide, rfl⟩

/-- Claim C10, witness: a concrete environment with USER unset and a typed
display name. -/
theorem c10_witness :
    (loginRun c10env).2 = none ∧
    LoginStep.loginExchange ∉ (loginRun c10env).1 ∧
    LoginStep.promptDisplayName ∉ (loginRun c10env).1 ∧
    (loginRun c10env).1.getLast? = some LoginStep.computeDisplayDefault :=
  c10_user_env_unset_panics c10env (by rfl)
